import Mathlib

/-!
Verification of the baseball analytics dashboard (`baseball_dashboard.py`).

The dataframe is modelled as a `Table`: a list of statistic column names
(`statCols`, the numeric columns besides `Season`) together with a list of
rows.  Every row carries the `Player` and `Season` columns (the schema of the
data model) plus an association list for the statistic cells; a cell value of
`none` models a pandas `NaN`, and a column name absent from `statCols` models
a column missing from the CSV.  Exceptions raised by pandas indexing
(`IndexError` from `.iloc[0]` on an empty frame, `KeyError` from selecting an
absent column) are modelled with `Except`.
-/

/-- Exceptions the dashboard code can raise through pandas indexing. -/
inductive DashError where
  | indexError : DashError
  | keyError : DashError
deriving DecidableEq, Repr

instance {ε α : Type} [DecidableEq ε] [DecidableEq α] : DecidableEq (Except ε α) :=
  fun x y =>
    match x, y with
    | Except.ok a, Except.ok b =>
        if h : a = b then isTrue (by rw [h]) else isFalse fun he => h (Except.ok.inj he)
    | Except.ok _, Except.error _ => isFalse fun he => Except.noConfusion he
    | Except.error _, Except.ok _ => isFalse fun he => Except.noConfusion he
    | Except.error e, Except.error f =>
        if h : e = f then isTrue (by rw [h]) else isFalse fun he => h (Except.error.inj he)

/-- One row of the loaded table: the `Player` and `Season` columns plus the
statistic cells.  A cell holding `none` models a `NaN` value. -/
structure Row where
  player : String
  season : Int
  cells : List (String × Option ℚ)
deriving DecidableEq, Repr

/-- The in-memory dataframe: the statistic columns present in the CSV and the
rows.  The full column list is `Player`, `Season`, then `statCols`. -/
structure Table where
  statCols : List String
  rows : List Row
deriving DecidableEq, Repr

/-- Value of a statistic cell in a row (`none` models `NaN`). -/
def rowVal (r : Row) (c : String) : Option ℚ :=
  (r.cells.lookup c).join

/-- Value of a numeric cell in a row, covering the `Season` column as well as
the statistic columns. -/
def numVal (r : Row) (c : String) : Option ℚ :=
  if c = "Season" then some (r.season : ℚ) else rowVal r c

/-- The column vector of a statistic column over a table. -/
def colVals (t : Table) (c : String) : List (Option ℚ) :=
  t.rows.map fun r => rowVal r c

/-- The column vector of a numeric column (including `Season`) over a table. -/
def colValsN (t : Table) (c : String) : List (Option ℚ) :=
  t.rows.map fun r => numVal r c

/-- Pandas column mean: the arithmetic mean of the non-`NaN` entries, `NaN`
(`none`) when there are none. -/
def meanOpt (xs : List (Option ℚ)) : Option ℚ :=
  let vs := xs.reduceOption
  if vs.isEmpty then none else some (vs.sum / (vs.length : ℚ))

/-- Float addition with `NaN` propagation: `NaN + x = NaN`. -/
def addNaN (a b : Option ℚ) : Option ℚ :=
  match a, b with
  | some x, some y => some (x + y)
  | _, _ => none

/-- `filtered_df`: the season-range filter of `update_dashboard`
(`Season >= season_range[0]` and `Season <= season_range[1]`). -/
def filterSeason (t : Table) (lo hi : Int) : Table :=
  { t with rows := t.rows.filter fun r => decide (lo ≤ r.season) && decide (r.season ≤ hi) }

/-- The player filter (`filtered_df['Player'] == selected_player`). -/
def filterPlayer (t : Table) (p : String) : Table :=
  { t with rows := t.rows.filter fun r => r.player == p }

/-- The `filtered_df` frame computed by `update_dashboard`. -/
def filteredDf (t : Table) (lo hi : Int) : Table :=
  filterSeason t lo hi

/-- The `player_data` frame computed by `update_dashboard`. -/
def playerData (t : Table) (p : String) (lo hi : Int) : Table :=
  filterPlayer (filteredDf t lo hi) p

/-- `player_data['X'].iloc[0]`: the first row's cell, raising `IndexError` on
an empty frame. -/
def iloc0 (pd : Table) (c : String) : Except DashError (Option ℚ) :=
  match pd.rows.head? with
  | none => Except.error DashError.indexError
  | some r => Except.ok (rowVal r c)

/-- The stats shown by the overview cards in `create_stats_overview`. -/
def overviewStats : List String := ["AVG", "OBP", "SLUG", "OPS", "HR", "RBI"]

/-- The payload of the player stats overview. -/
inductive Overview where
  | noData : Overview
  | cards (player : String) (xs : List (String × Option ℚ)) : Overview
deriving DecidableEq, Repr

/-- `create_stats_overview`: placeholder on an empty frame, otherwise one card
per overview stat present in the columns, valued from the last row
(`player_data.iloc[-1]`). -/
def create_stats_overview (pd : Table) (player_name : String) : Overview :=
  match pd.rows.getLast? with
  | none => Overview.noData
  | some latest =>
      Overview.cards player_name
        ((overviewStats.filter fun s => decide (s ∈ pd.statCols)).map fun s =>
          (s, rowVal latest s))

/-- The stats plotted by `create_batting_trend`. -/
def trendStats : List String := ["AVG", "OBP", "SLUG"]

/-- The payload of the batting trend chart: either one line per present stat
over the seasons, or a single bar chart of the first row's values. -/
inductive Trend where
  | lineChart (traces : List (String × List (Int × Option ℚ))) : Trend
  | barChart (values : List (String × Option ℚ)) : Trend
deriving DecidableEq, Repr

/-- One bar value of the single-row branch of `create_batting_trend`:
`player_data[stat].iloc[0] if stat in player_data.columns else 0`. -/
def barVal (pd : Table) (s : String) : Except DashError (Option ℚ) :=
  if s ∈ pd.statCols then iloc0 pd s else Except.ok (some 0)

/-- `create_batting_trend`: with more than one row, a line trace per present
trend stat; otherwise a bar chart built from the first row (which raises
`IndexError` when the frame is empty and a trend stat column is present). -/
def create_batting_trend (pd : Table) : Except DashError Trend :=
  if 1 < pd.rows.length then
    Except.ok (Trend.lineChart
      ((trendStats.filter fun s => decide (s ∈ pd.statCols)).map fun s =>
        (s, pd.rows.map fun r => (r.season, rowVal r s))))
  else do
    let a ← barVal pd "AVG"
    let b ← barVal pd "OBP"
    let c ← barVal pd "SLUG"
    Except.ok (Trend.barChart [("AVG", a), ("OBP", b), ("SLUG", c)])

/-- Per-row extra-base hits of the multi-row branch of `create_power_stats`:
each of `2B`, `3B`, `HR` contributes its value when the column is present and
the value is not `NaN`, and `0` otherwise. -/
def rowXBH (cols : List String) (r : Row) : ℚ :=
  (if "2B" ∈ cols then (rowVal r "2B").getD 0 else 0) +
  (if "3B" ∈ cols then (rowVal r "3B").getD 0 else 0) +
  (if "HR" ∈ cols then (rowVal r "HR").getD 0 else 0)

/-- The payload of the power stats chart. -/
inductive PowerStats where
  | multi (hr : Option (List (Int × Option ℚ))) (xbh : List (Int × ℚ)) : PowerStats
  | single (hr : Option ℚ) (xbh : Option ℚ) : PowerStats
deriving DecidableEq, Repr

/-- One step of the single-row XBH accumulation of `create_power_stats`:
`if col in columns: xbh_val += player_data[col].iloc[0] or 0`.  A `NaN`
(`none`) cell is truthy in Python, so `or 0` keeps it and the addition
propagates it. -/
def xbhStep (pd : Table) (acc : Except DashError (Option ℚ)) (c : String) :
    Except DashError (Option ℚ) :=
  if c ∈ pd.statCols then do
    let a ← acc
    let v ← iloc0 pd c
    Except.ok (addNaN a v)
  else acc

/-- `create_power_stats`: with more than one row, an HR bar trace (when the
column is present) and the per-season XBH bars; otherwise single bars built
from the first row. -/
def create_power_stats (pd : Table) : Except DashError PowerStats :=
  if 1 < pd.rows.length then
    Except.ok (PowerStats.multi
      (if "HR" ∈ pd.statCols
        then some (pd.rows.map fun r => (r.season, rowVal r "HR")) else none)
      (pd.rows.map fun r => (r.season, rowXBH pd.statCols r)))
  else do
    let hr ← barVal pd "HR"
    let xbh ← xbhStep pd (xbhStep pd (xbhStep pd (Except.ok (some 0)) "2B") "3B") "HR"
    Except.ok (PowerStats.single hr xbh)

/-- The rate stats normalized by `0.400` in `create_radar_chart`. -/
def rateStats : List String := ["AVG", "OBP", "SLUG", "BABIP"]

/-- The fixed normalization divisor of `create_radar_chart`: `0.400` for the
rate stats, `1.000` for `OPS`, `50` for every other stat. -/
def divisor (s : String) : ℚ :=
  if s ∈ rateStats then 2 / 5 else if s = "OPS" then 1 else 50

/-- A normalized radar value: the raw value over its divisor, clipped to `1`. -/
def normalizeStat (s : String) (v : ℚ) : ℚ :=
  min (v / divisor s) 1

/-- The default radar stats when no stat is selected. -/
def defaultRadarStats : List String := ["AVG", "OBP", "SLUG", "OPS"]

/-- The normalized radar points: one per radar stat whose column is present
and whose value in the last row is not `NaN`. -/
def radarPoints (pd : Table) (selected : List String) : List (String × ℚ) :=
  match pd.rows.getLast? with
  | none => []
  | some latest =>
      (if selected.isEmpty then defaultRadarStats else selected).filterMap fun s =>
        if s ∈ pd.statCols then
          match rowVal latest s with
          | some v => some (s, normalizeStat s v)
          | none => none
        else none

/-- The payload of the radar chart. -/
inductive Radar where
  | noData : Radar
  | noValid : Radar
  | chart (points : List (String × ℚ)) : Radar
deriving DecidableEq, Repr

/-- `create_radar_chart`: placeholder on an empty frame, the "no valid stats"
annotation when no point survives, and the polar trace otherwise. -/
def create_radar_chart (pd : Table) (selected : List String) : Radar :=
  match pd.rows.getLast? with
  | none => Radar.noData
  | some _ =>
      let pts := radarPoints pd selected
      if pts.isEmpty then Radar.noValid else Radar.chart pts

/-- The payload of the player-vs-league comparison chart. -/
inductive Comparison where
  | selectPrompt : Comparison
  | bars (league : List (String × Option ℚ)) (playerAvg : List (String × Option ℚ)) : Comparison
deriving DecidableEq, Repr

/-- `create_comparison_chart`: a prompt when no stat is selected; otherwise
`full_df[selected_stats]` raises `KeyError` when a selected stat column is
absent, and the league and player bars are the column means of the frame it
was handed and of that frame restricted to the selected player. -/
def create_comparison_chart (full_df : Table) (p : String) (stats : List String) :
    Except DashError Comparison :=
  if stats.isEmpty then Except.ok Comparison.selectPrompt
  else if stats.all fun s => decide (s ∈ full_df.statCols) then
    Except.ok (Comparison.bars
      (stats.map fun s => (s, meanOpt (colVals full_df s)))
      (stats.map fun s => (s, meanOpt (colVals (filterPlayer full_df p) s))))
  else Except.error DashError.keyError

/-- The numeric columns of a table (`select_dtypes(include=[np.number])`):
`Season` followed by the statistic columns; the `Player` column has object
dtype and is excluded. -/
def numericCols (t : Table) : List String :=
  "Season" :: t.statCols

/-- The Pearson correlation coefficient of two columns, over the pairwise
complete observations (pandas `DataFrame.corr`): `NaN` (`none`) when either
variance term vanishes. -/
noncomputable def pearson (xs ys : List (Option ℚ)) : Option ℝ :=
  let ps := (xs.zip ys).filterMap fun pr =>
    match pr.1, pr.2 with
    | some a, some b => some (a, b)
    | _, _ => none
  let n : ℚ := (ps.length : ℚ)
  let sx := (ps.map fun pr => pr.1).sum
  let sy := (ps.map fun pr => pr.2).sum
  let sxx := (ps.map fun pr => pr.1 * pr.1).sum
  let syy := (ps.map fun pr => pr.2 * pr.2).sum
  let sxy := (ps.map fun pr => pr.1 * pr.2).sum
  let vx := n * sxx - sx * sx
  let vy := n * syy - sy * sy
  if vx = 0 ∨ vy = 0 then none
  else some (((n * sxy - sx * sy : ℚ) : ℝ) / (Real.sqrt (vx : ℝ) * Real.sqrt (vy : ℝ)))

/-- The payload of the correlation heatmap: the columns displayed and the
matrix entry for each pair of column names. -/
structure Heatmap where
  cols : List String
  entry : String → String → Option ℝ

/-- `create_correlation_heatmap`: the Pearson correlation matrix over the
numeric columns of the frame it was handed. -/
noncomputable def create_correlation_heatmap (pd : Table) : Heatmap :=
  { cols := numericCols pd
    entry := fun c1 c2 => pearson (colValsN pd c1) (colValsN pd c2) }

/-- The three dashboard controls feeding the update callback. -/
structure DashInputs where
  selectedPlayer : String
  selectedStats : List String
  seasonLo : Int
  seasonHi : Int

/-- The six outputs of the update callback. -/
structure Outputs where
  overview : Overview
  trend : Except DashError Trend
  power : Except DashError PowerStats
  radar : Radar
  comparison : Except DashError Comparison
  heatmap : Heatmap

/-- `update_dashboard`: filters the stored table by season range and player
and recomputes every output; the first component is the stored table after
the callback (the code only reads `self.df`, working on copies). -/
noncomputable def update_dashboard (df : Table) (inp : DashInputs) : Table × Outputs :=
  let filtered_df := filteredDf df inp.seasonLo inp.seasonHi
  let player_data := filterPlayer filtered_df inp.selectedPlayer
  (df,
    { overview := create_stats_overview player_data inp.selectedPlayer
      trend := create_batting_trend player_data
      power := create_power_stats player_data
      radar := create_radar_chart player_data inp.selectedStats
      comparison := create_comparison_chart filtered_df inp.selectedPlayer inp.selectedStats
      heatmap := create_correlation_heatmap player_data })

/-- The players of the synthetic sample generator. -/
def samplePlayers : List String :=
  ["Mike Trout", "Mookie Betts", "Juan Soto", "Aaron Judge", "Vladimir Guerrero Jr."]

/-- The seasons of the synthetic sample generator. -/
def sampleSeasons : List Int := [2021, 2022, 2023]

/-- The statistic columns of the synthetic sample data. -/
def sampleStatCols : List String :=
  ["AVG", "OBP", "SLUG", "OPS", "BABIP", "HR", "2B", "3B", "RBI", "SB", "BB", "SO"]

/-- One batch of random draws for a sample row. -/
structure DrawVals where
  avg : ℚ
  obp : ℚ
  slug : ℚ
  ops : ℚ
  babip : ℚ
  hr : ℚ
  d2 : ℚ
  d3 : ℚ
  rbi : ℚ
  sb : ℚ
  bb : ℚ
  so : ℚ
deriving DecidableEq, Repr

/-- One sample row as appended by `generate_sample_data`. -/
def mkSampleRow (p : String) (s : Int) (d : DrawVals) : Row :=
  { player := p
    season := s
    cells := [("AVG", some d.avg), ("OBP", some d.obp), ("SLUG", some d.slug),
      ("OPS", some d.ops), ("BABIP", some d.babip), ("HR", some d.hr),
      ("2B", some d.d2), ("3B", some d.d3), ("RBI", some d.rbi),
      ("SB", some d.sb), ("BB", some d.bb), ("SO", some d.so)] }

/-- Column assignment: replace the value stored under a column name. -/
def setCell (cs : List (String × Option ℚ)) (c : String) (v : Option ℚ) :
    List (String × Option ℚ) :=
  cs.map fun pr => if pr.1 = c then (c, v) else pr

/-- The per-row effect of `df['OPS'] = df['OBP'] + df['SLUG']`. -/
def recalcRow (r : Row) : Row :=
  { r with cells := setCell r.cells "OPS" (addNaN (rowVal r "OBP") (rowVal r "SLUG")) }

/-- `df['OPS'] = df['OBP'] + df['SLUG']` over the whole frame. -/
def recalcOPS (t : Table) : Table :=
  { t with rows := t.rows.map recalcRow }

/-- `generate_sample_data`: one row per player and season from the random
draws, then the `OPS` column recalculated as `OBP + SLUG`. -/
def generate_sample_data (draws : String → Int → DrawVals) : Table :=
  recalcOPS
    { statCols := sampleStatCols
      rows := (samplePlayers.map fun p =>
        sampleSeasons.map fun s => mkSampleRow p s (draws p s)).flatten }

/-- `Except` success as a boolean (no exception raised). -/
def isOkE {α : Type} (e : Except DashError α) : Bool :=
  match e with
  | Except.ok _ => true
  | Except.error _ => false

/-- C1: for every table, player and season range, the filtered set used by
`update_dashboard` contains exactly the rows whose season lies in the range,
and the player view contains exactly those of them whose player equals the
selection. -/
theorem filter_bounds_exact (t : Table) (lo hi : Int) (p : String) (r : Row) :
    (r ∈ (filteredDf t lo hi).rows ↔ r ∈ t.rows ∧ lo ≤ r.season ∧ r.season ≤ hi) ∧
    (r ∈ (playerData t p lo hi).rows ↔
      r ∈ t.rows ∧ (lo ≤ r.season ∧ r.season ≤ hi) ∧ r.player = p) := by
  constructor
  · simp [filteredDf, filterSeason, List.mem_filter]
  · simp only [playerData, filteredDf, filterPlayer, filterSeason, List.mem_filter,
      Bool.and_eq_true, decide_eq_true_eq, beq_iff_eq]
    tauto

/-- C8: the stored dataframe is unchanged by every dashboard update; the
callback only derives filtered copies. -/
theorem stored_table_unchanged (t : Table) (inp : DashInputs) :
    (update_dashboard t inp).1 = t := rfl

/-- C2: every radar point of a selected stat present and non-missing in the
last row equals the raw value over its fixed divisor clipped to `1`, and every
plotted radar value is at most `1`. -/
theorem radar_normalized_clipped (pd : Table) (sel : List String) (latest : Row)
    (h : pd.rows.getLast? = some latest) :
    (∀ s raw, s ∈ (if sel.isEmpty then defaultRadarStats else sel) →
      s ∈ pd.statCols → rowVal latest s = some raw →
      (s, min (raw / divisor s) 1) ∈ radarPoints pd sel ∧
        min (raw / divisor s) 1 ≤ 1) ∧
    (∀ s v, (s, v) ∈ radarPoints pd sel → v ≤ 1) := by
  constructor
  · intro s raw hs hcol hval
    refine ⟨?_, min_le_right _ _⟩
    simp only [radarPoints, h]
    refine List.mem_filterMap.mpr ⟨s, hs, ?_⟩
    simp [hcol, hval, normalizeStat]
  · intro s v hv
    simp only [radarPoints, h] at hv
    obtain ⟨a, ha, hfa⟩ := List.mem_filterMap.mp hv
    by_cases hc : a ∈ pd.statCols
    · simp only [if_pos hc] at hfa
      cases hra : rowVal latest a with
      | none => rw [hra] at hfa; simp at hfa
      | some v0 =>
          rw [hra] at hfa
          simp only [Option.some.injEq, Prod.mk.injEq] at hfa
          rw [← hfa.2]
          exact min_le_right _ _
    · simp [hc] at hfa

/-- A one-row table exercising the radar normalization. -/
def wRow : Row := { player := "A", season := 2021, cells := [("AVG", some (3/10))] }

/-- The one-row table holding `wRow`. -/
def wTable : Table := { statCols := ["AVG"], rows := [wRow] }

theorem radar_normalized_clipped_witness :
    ("AVG", min ((3/10 : ℚ) / divisor "AVG") 1) ∈ radarPoints wTable ["AVG"] ∧
      min ((3/10 : ℚ) / divisor "AVG") 1 ≤ 1 :=
  (radar_normalized_clipped wTable ["AVG"] wRow rfl).1 "AVG" (3/10)
    (by decide) (by decide) rfl

/-- The table holding only the last row of a frame. -/
def lastRowTable (pd : Table) : Table :=
  { pd with rows := pd.rows.getLast?.toList }

/-- C10: on a non-empty player frame, the stats overview and the radar chart
depend only on the last row: they are unchanged when the frame is replaced by
its last row alone. -/
theorem latest_row_only (pd : Table) (name : String) (sel : List String)
    (h : pd.rows ≠ []) :
    create_stats_overview pd name = create_stats_overview (lastRowTable pd) name ∧
    create_radar_chart pd sel = create_radar_chart (lastRowTable pd) sel := by
  obtain ⟨l, hl⟩ := Option.isSome_iff_exists.mp (List.getLast?_isSome.mpr h)
  constructor
  · simp [create_stats_overview, lastRowTable, hl]
  · simp [create_radar_chart, radarPoints, lastRowTable, hl]

/-- A second sample row, for tables with more than one row. -/
def wRowB : Row := { player := "A", season := 2022, cells := [("AVG", some (2/5))] }

/-- A two-row table over the single stat column `AVG`. -/
def wTable2 : Table := { statCols := ["AVG"], rows := [wRow, wRowB] }

theorem latest_row_only_witness :
    create_stats_overview wTable2 "A" = create_stats_overview (lastRowTable wTable2) "A" ∧
    create_radar_chart wTable2 ["AVG"] = create_radar_chart (lastRowTable wTable2) ["AVG"] :=
  latest_row_only wTable2 "A" ["AVG"] (by decide)

/-- C7: every row produced by the synthetic sample generator satisfies
`OPS = OBP + SLUG`, whatever the random draws were. -/
theorem sample_ops_invariant (draws : String → Int → DrawVals) (r : Row)
    (hr : r ∈ (generate_sample_data draws).rows) :
    ∃ o sl, rowVal r "OBP" = some o ∧ rowVal r "SLUG" = some sl ∧
      rowVal r "OPS" = some (o + sl) := by
  simp only [generate_sample_data, recalcOPS, List.mem_map] at hr
  obtain ⟨r0, hr0, rfl⟩ := hr
  simp only [List.mem_flatten, List.mem_map] at hr0
  obtain ⟨lst, ⟨p, hp, rfl⟩, hin⟩ := hr0
  obtain ⟨s, hs, rfl⟩ := List.mem_map.mp hin
  exact ⟨(draws p s).obp, (draws p s).slug, rfl, rfl, rfl⟩

/-- A fixed batch of draws for the sample generator. -/
def wDraws : String → Int → DrawVals :=
  fun _ _ => ⟨1, 2, 3, 4, 5, 6, 7, 8, 9, 10, 11, 12⟩

/-- The first sample row generated from `wDraws`. -/
def wSampleRow : Row :=
  recalcRow (mkSampleRow "Mike Trout" 2021 (wDraws "Mike Trout" 2021))

theorem sample_ops_invariant_witness :
    ∃ o sl, rowVal wSampleRow "OBP" = some o ∧ rowVal wSampleRow "SLUG" = some sl ∧
      rowVal wSampleRow "OPS" = some (o + sl) :=
  sample_ops_invariant wDraws wSampleRow (List.Mem.head _)

/-- C3 (amended): for a non-empty selection of stats all present as columns,
the comparison chart's player bar is the column mean over the selected
player's rows within the season-filtered set, and its league bar is the
column mean over the season-filtered set (not over the entire loaded table:
`update_dashboard` hands the chart `filtered_df`). -/
theorem comparison_bars_means (t : Table) (p : String) (stats : List String)
    (lo hi : Int) (h1 : stats ≠ [])
    (h2 : (stats.all fun s => decide (s ∈ t.statCols)) = true) :
    (update_dashboard t ⟨p, stats, lo, hi⟩).2.comparison =
      Except.ok (Comparison.bars
        (stats.map fun s => (s, meanOpt (colVals (filteredDf t lo hi) s)))
        (stats.map fun s => (s, meanOpt (colVals (playerData t p lo hi) s)))) := by
  have he : stats.isEmpty = false := by
    cases stats with
    | nil => exact absurd rfl h1
    | cons a l => rfl
  have h2' : (stats.all fun s => decide (s ∈ (filteredDf t lo hi).statCols)) = true := h2
  simp [update_dashboard, create_comparison_chart, he, h2', playerData]

/-- A first row for the comparison counterexample (season 2021, `HR = 0`). -/
def cRow1 : Row := { player := "A", season := 2021, cells := [("HR", some 0)] }

/-- A second row for the comparison counterexample (season 2022, `HR = 1`). -/
def cRow2 : Row := { player := "A", season := 2022, cells := [("HR", some 1)] }

/-- A two-season table whose full-table `HR` mean is `1/2`. -/
def cTable : Table := { statCols := ["HR"], rows := [cRow1, cRow2] }

/-- C3 counterexample: restricting the season range to 2022 makes the league
bar `1`, while the `HR` mean over the entire loaded table is `1/2`; the
displayed chart differs from the one the claim asserts. -/
theorem comparison_league_counterexample :
    (update_dashboard cTable ⟨"A", ["HR"], 2022, 2022⟩).2.comparison =
      Except.ok (Comparison.bars [("HR", some 1)] [("HR", some 1)]) ∧
    meanOpt (colVals cTable "HR") = some (1 / 2) ∧
    (Except.ok (Comparison.bars [("HR", some 1)] [("HR", some 1)]) :
        Except DashError Comparison) ≠
      Except.ok (Comparison.bars [("HR", some (1 / 2))] [("HR", some 1)]) := by
  refine ⟨?_, ?_, ?_⟩
  · show create_comparison_chart (filteredDf cTable 2022 2022) "A" ["HR"] =
      Except.ok (Comparison.bars [("HR", some 1)] [("HR", some 1)])
    norm_num [create_comparison_chart, filteredDf, filterSeason, filterPlayer,
      cTable, cRow1, cRow2, colVals, meanOpt, rowVal, List.lookup, List.reduceOption,
      List.filterMap_cons, List.filterMap_nil]
  · norm_num [meanOpt, colVals, cTable, cRow1, cRow2, rowVal, List.lookup,
      List.reduceOption, List.filterMap_cons, List.filterMap_nil]
  · norm_num

theorem comparison_bars_means_witness :
    (update_dashboard cTable ⟨"A", ["HR"], 2022, 2022⟩).2.comparison =
      Except.ok (Comparison.bars
        (["HR"].map fun s => (s, meanOpt (colVals (filteredDf cTable 2022 2022) s)))
        (["HR"].map fun s => (s, meanOpt (colVals (playerData cTable "A" 2022 2022) s)))) :=
  comparison_bars_means cTable "A" ["HR"] 2022 2022 (by decide) (by decide)

/-- C4: the correlation heatmap produced by the dashboard update displays the
Pearson correlation matrix over exactly the numeric columns of the filtered
player frame: its entry for a pair of columns is the Pearson coefficient of
those two column vectors, and the non-numeric `Player` column is excluded. -/
theorem heatmap_pearson_numeric (t : Table) (p : String) (stats : List String)
    (lo hi : Int) (h : "Player" ∉ t.statCols) :
    ((update_dashboard t ⟨p, stats, lo, hi⟩).2.heatmap).cols =
      numericCols (playerData t p lo hi) ∧
    (∀ c1 c2, ((update_dashboard t ⟨p, stats, lo, hi⟩).2.heatmap).entry c1 c2 =
      pearson (colValsN (playerData t p lo hi) c1)
        (colValsN (playerData t p lo hi) c2)) ∧
    "Player" ∉ ((update_dashboard t ⟨p, stats, lo, hi⟩).2.heatmap).cols := by
  refine ⟨rfl, fun c1 c2 => rfl, ?_⟩
  show "Player" ∉ numericCols (playerData t p lo hi)
  simp only [numericCols, List.mem_cons]
  rintro (hps | hmem)
  · exact absurd hps (by decide)
  · exact h hmem

theorem heatmap_pearson_numeric_witness :
    "Player" ∉ cTable.statCols ∧
    ((update_dashboard cTable ⟨"A", ["HR"], 2022, 2022⟩).2.heatmap).cols =
      numericCols (playerData cTable "A" 2022 2022) :=
  ⟨by decide, (heatmap_pearson_numeric cTable "A" ["HR"] 2022 2022 (by decide)).1⟩

/-- A row of a second player, season 2022, for the empty-filter scenario. -/
def eRow : Row :=
  { player := "B", season := 2022, cells := [("AVG", some (1/4)), ("HR", some 10)] }

/-- A table where player `A` has no row in season 2022. -/
def eTable : Table :=
  { statCols := ["AVG", "OBP", "SLUG", "OPS", "HR", "RBI"], rows := [wRow, eRow] }

/-- C5: selecting player `A` with the season range restricted to 2022 makes
the filtered player data empty; the stats overview and the radar chart then
display their placeholders, but the batting trend and the power stats chart
read `.iloc[0]` of the empty frame and raise `IndexError` instead of showing
a placeholder. -/
theorem empty_filter_divergence :
    (playerData eTable "A" 2022 2022).rows = [] ∧
    (update_dashboard eTable ⟨"A", ["AVG"], 2022, 2022⟩).2.overview = Overview.noData ∧
    (update_dashboard eTable ⟨"A", ["AVG"], 2022, 2022⟩).2.radar = Radar.noData ∧
    (update_dashboard eTable ⟨"A", ["AVG"], 2022, 2022⟩).2.trend =
      Except.error DashError.indexError ∧
    (update_dashboard eTable ⟨"A", ["AVG"], 2022, 2022⟩).2.power =
      Except.error DashError.indexError := by
  refine ⟨?_, ?_, ?_, ?_, ?_⟩ <;> decide

/-- On a non-empty frame, `.iloc[0]` succeeds. -/
theorem iloc0_ok (pd : Table) (c : String) (h : pd.rows ≠ []) :
    ∃ v, iloc0 pd c = Except.ok v := by
  cases hrows : pd.rows with
  | nil => exact absurd hrows h
  | cons a l => exact ⟨rowVal a c, by simp [iloc0, hrows]⟩

/-- On a non-empty frame, a single-row bar value never raises, whether or not
the column is present. -/
theorem barVal_ok (pd : Table) (c : String) (h : pd.rows ≠ []) :
    ∃ v, barVal pd c = Except.ok v := by
  by_cases hc : c ∈ pd.statCols
  · obtain ⟨v, hv⟩ := iloc0_ok pd c h
    exact ⟨v, by simp [barVal, hc, hv]⟩
  · exact ⟨some 0, by simp [barVal, hc]⟩

/-- On a non-empty frame, one XBH accumulation step never raises. -/
theorem xbhStep_ok (pd : Table) (c : String) (acc : Except DashError (Option ℚ))
    (h : pd.rows ≠ []) (ha : ∃ a, acc = Except.ok a) :
    ∃ v, xbhStep pd acc c = Except.ok v := by
  obtain ⟨a, rfl⟩ := ha
  by_cases hc : c ∈ pd.statCols
  · obtain ⟨v, hv⟩ := iloc0_ok pd c h
    exact ⟨addNaN a v, by simp [xbhStep, hc, hv, Except.instMonad, Except.bind]⟩
  · exact ⟨a, by simp [xbhStep, hc]⟩

/-- C6 (amended): on a non-empty filtered player frame, the batting trend and
power stats charts tolerate any combination of missing statistic columns
without raising; the comparison chart, by contrast, succeeds exactly when
every selected statistic is a column of the table, and raises `KeyError`
otherwise.  (The overview and radar chart are total by construction: they
omit the cards and points of missing columns.) -/
theorem missing_columns_tolerated (t : Table) (p : String) (stats : List String)
    (lo hi : Int) :
    ((playerData t p lo hi).rows ≠ [] →
      isOkE (create_batting_trend (playerData t p lo hi)) = true ∧
      isOkE (create_power_stats (playerData t p lo hi)) = true) ∧
    (stats ≠ [] →
      (isOkE (create_comparison_chart (filteredDf t lo hi) p stats) = true ↔
        (stats.all fun s => decide (s ∈ t.statCols)) = true)) := by
  constructor
  · intro hne
    constructor
    · by_cases hlen : 1 < (playerData t p lo hi).rows.length
      · simp [create_batting_trend, hlen, isOkE]
      · obtain ⟨a, ha⟩ := barVal_ok (playerData t p lo hi) "AVG" hne
        obtain ⟨b, hb⟩ := barVal_ok (playerData t p lo hi) "OBP" hne
        obtain ⟨c, hc⟩ := barVal_ok (playerData t p lo hi) "SLUG" hne
        simp [create_batting_trend, hlen, ha, hb, hc, isOkE,
          Except.instMonad, Except.bind]
    · by_cases hlen : 1 < (playerData t p lo hi).rows.length
      · simp [create_power_stats, hlen, isOkE]
      · obtain ⟨h0, hh0⟩ := barVal_ok (playerData t p lo hi) "HR" hne
        obtain ⟨x1, hx1⟩ := xbhStep_ok (playerData t p lo hi) "2B"
          (Except.ok (some 0)) hne ⟨some 0, rfl⟩
        obtain ⟨x2, hx2⟩ := xbhStep_ok (playerData t p lo hi) "3B"
          (xbhStep (playerData t p lo hi) (Except.ok (some 0)) "2B") hne ⟨x1, hx1⟩
        obtain ⟨x3, hx3⟩ := xbhStep_ok (playerData t p lo hi) "HR"
          (xbhStep (playerData t p lo hi)
            (xbhStep (playerData t p lo hi) (Except.ok (some 0)) "2B") "3B") hne ⟨x2, hx2⟩
        simp [create_power_stats, hlen, hh0, hx3, isOkE,
          Except.instMonad, Except.bind]
  · intro hs
    have he : stats.isEmpty = false := by
      cases stats with
      | nil => exact absurd rfl hs
      | cons a l => rfl
    by_cases hall : (stats.all fun s => decide (s ∈ t.statCols)) = true
    · have hall' : (stats.all fun s => decide (s ∈ (filteredDf t lo hi).statCols)) = true :=
        hall
      simp [create_comparison_chart, he, hall', hall, isOkE]
    · have hall' : ¬ (stats.all fun s => decide (s ∈ (filteredDf t lo hi).statCols)) = true :=
        hall
      simp [create_comparison_chart, he, hall', hall, isOkE]

/-- C6 counterexample: on a table without an `SB` column, selecting the `SB`
statistic makes the dashboard's comparison chart raise `KeyError` instead of
tolerating the missing column. -/
theorem missing_column_counterexample :
    (update_dashboard wTable ⟨"A", ["SB"], 2021, 2021⟩).2.comparison =
      Except.error DashError.keyError := by decide

theorem missing_columns_tolerated_witness :
    (isOkE (create_batting_trend (playerData wTable "A" 2021 2021)) = true ∧
      isOkE (create_power_stats (playerData wTable "A" 2021 2021)) = true) ∧
    (isOkE (create_comparison_chart (filteredDf wTable 2021 2021) "A" ["SB"]) = true ↔
      (["SB"].all fun s => decide (s ∈ wTable.statCols)) = true) :=
  ⟨(missing_columns_tolerated wTable "A" ["SB"] 2021 2021).1 (by decide),
   (missing_columns_tolerated wTable "A" ["SB"] 2021 2021).2 (by decide)⟩

/-- On a one-row frame, one XBH accumulation step over a non-`NaN` cell adds
the cell's value when the column is present (and `0` when it is absent). -/
theorem xbhStep_single (pd : Table) (r : Row) (c : String) (hrows : pd.rows = [r])
    (x : ℚ) (hs : c ∈ pd.statCols → (rowVal r c).isSome = true) :
    xbhStep pd (Except.ok (some x)) c =
      Except.ok (some (x + (if c ∈ pd.statCols then (rowVal r c).getD 0 else 0))) := by
  by_cases hc : c ∈ pd.statCols
  · obtain ⟨v, hv⟩ := Option.isSome_iff_exists.mp (hs hc)
    simp [xbhStep, hc, iloc0, hrows, hv, addNaN, Except.instMonad, Except.bind]
  · simp [xbhStep, hc]

/-- C9 (amended): in the multi-row power chart, the plotted XBH of every row
is its doubles plus triples plus home runs with a missing column or `NaN`
value contributing `0`; in the single-row case the same sum is plotted
provided every present XBH column holds a non-`NaN` value (a `NaN` value
there propagates instead of contributing `0`). -/
theorem xbh_doubles_triples_homers :
    (∀ pd : Table, 1 < pd.rows.length →
      create_power_stats pd = Except.ok (PowerStats.multi
        (if "HR" ∈ pd.statCols
          then some (pd.rows.map fun r => (r.season, rowVal r "HR")) else none)
        (pd.rows.map fun r => (r.season, rowXBH pd.statCols r)))) ∧
    (∀ (pd : Table) (r : Row), pd.rows = [r] →
      (∀ c ∈ (["2B", "3B", "HR"] : List String),
        c ∈ pd.statCols → (rowVal r c).isSome = true) →
      ∃ hr, create_power_stats pd =
        Except.ok (PowerStats.single hr (some (rowXBH pd.statCols r)))) := by
  constructor
  · intro pd hlen
    simp [create_power_stats, hlen]
  · intro pd r hrows hsome
    have hlen : ¬ 1 < pd.rows.length := by simp [hrows]
    obtain ⟨hrv, hhrv⟩ := barVal_ok pd "HR" (by simp [hrows])
    refine ⟨hrv, ?_⟩
    have hxbh : xbhStep pd (xbhStep pd (xbhStep pd (Except.ok (some 0)) "2B") "3B") "HR" =
        Except.ok (some (0 + (if "2B" ∈ pd.statCols then (rowVal r "2B").getD 0 else 0)
          + (if "3B" ∈ pd.statCols then (rowVal r "3B").getD 0 else 0)
          + (if "HR" ∈ pd.statCols then (rowVal r "HR").getD 0 else 0))) := by
      rw [xbhStep_single pd r "2B" hrows 0 (hsome "2B" (by simp)),
          xbhStep_single pd r "3B" hrows _ (hsome "3B" (by simp)),
          xbhStep_single pd r "HR" hrows _ (hsome "HR" (by simp))]
    simp [create_power_stats, hlen, hhrv, hxbh, rowXBH, zero_add, add_assoc,
      Except.instMonad, Except.bind]

/-- A single row whose `2B` cell is `NaN` while `3B = 1` and `HR = 2`. -/
def nRow : Row :=
  { player := "A", season := 2021, cells := [("2B", none), ("3B", some 1), ("HR", some 2)] }

/-- A one-row table with all three XBH columns present. -/
def nTable : Table := { statCols := ["2B", "3B", "HR"], rows := [nRow] }

/-- C9 counterexample: with `2B` equal to `NaN` in the single-row case, the
plotted XBH is `NaN` (Python's `row or 0` keeps a truthy `NaN`), while the
claimed sum with a missing value contributing `0` is `3`. -/
theorem xbh_nan_counterexample :
    create_power_stats nTable = Except.ok (PowerStats.single (some 2) none) ∧
    rowXBH nTable.statCols nRow = 3 ∧
    (Except.ok (PowerStats.single (some 2) none) : Except DashError PowerStats) ≠
      Except.ok (PowerStats.single (some 2) (some (rowXBH nTable.statCols nRow))) := by
  refine ⟨?_, ?_, ?_⟩
  · decide
  · have h2 : rowVal nRow "2B" = none := rfl
    have h3 : rowVal nRow "3B" = some 1 := rfl
    have hh : rowVal nRow "HR" = some 2 := rfl
    norm_num [rowXBH, nTable, h2, h3, hh]
  · simp

theorem xbh_doubles_triples_homers_witness :
    create_power_stats wTable2 = Except.ok (PowerStats.multi
      (if "HR" ∈ wTable2.statCols
        then some (wTable2.rows.map fun r => (r.season, rowVal r "HR")) else none)
      (wTable2.rows.map fun r => (r.season, rowXBH wTable2.statCols r))) ∧
    ∃ hr, create_power_stats wTable =
      Except.ok (PowerStats.single hr (some (rowXBH wTable.statCols wRow))) :=
  ⟨xbh_doubles_triples_homers.1 wTable2 (by decide),
   xbh_doubles_triples_homers.2 wTable wRow rfl (by decide)⟩
